import Mathlib

/-!
Verification development for the librobinhood core: the identity model
(id.h), the URI resolver (src/utils/uri.c) and the Lustre attribute
extractor (lustre.c), shallowly embedded in Lean.

External collaborators (dlopen, llapi calls, ioctls, syscalls) are
modelled as explicit environment records of results; the embedded
functions are direct translations of the C control flow over those
records.
-/

namespace Robinhood

/-! ## Errno constants (from errno.h, as used by the sources) -/

def ENOMEM : Nat := 12
def EINVAL : Nat := 22
def ERANGE : Nat := 34
def ENODATA : Nat := 61
def ENOBUFS : Nat := 105

/-! ## Identity model (robinhood/id.h) -/

/-- `struct rbh_id`: a pointer to arbitrary data plus the number of bytes it
points at.  A size of 0 is the reserved sentinel for a filesystem root
parent, something that does not exist. -/
structure RbhId where
  data : List Nat
  size : Nat
deriving DecidableEq, Repr

/-- Byte-wise overwrite of a memory region `mem` starting at offset `i`.
Writes beyond the end of `mem` are dropped (List.set is the identity out of
bounds), mirroring that the contract forbids out-of-bounds writes. -/
def writeBytes : List Nat → Nat → List Nat → List Nat
  | m, _, [] => m
  | m, i, b :: bs => writeBytes (m.set i b) (i + 1) bs

/-- Result record of `rbh_id_copy`: the C return code, the errno it sets on
failure, the destination ID, the updated buffer cursor, the updated
remaining capacity, and the backing memory after the call. -/
structure IdCopyResult where
  rc : Int
  errnoSet : Option Nat
  dest : RbhId
  buffer : Nat
  bufsize : Nat
  mem : List Nat
deriving DecidableEq, Repr

/-- Modelled from the spec: the body of `rbh_id_copy` is not among the given
sources, only its declaration and contract in `robinhood/id.h`.  Per that
contract it validates the remaining capacity `bufsize` against `src.size`
before writing any byte, fails with ENOBUFS leaving the cursor, the
capacity and the memory untouched when `bufsize < src.size`, and otherwise
copies the `src.size` bytes of `src` into the buffer at the cursor,
advances the cursor by `src.size` and decrements the capacity by the
same amount. -/
def rbh_id_copy (src dest0 : RbhId) (mem : List Nat) (buffer bufsize : Nat) :
    IdCopyResult :=
  if bufsize < src.size then
    { rc := -1, errnoSet := some ENOBUFS, dest := dest0,
      buffer := buffer, bufsize := bufsize, mem := mem }
  else
    { rc := 0, errnoSet := none,
      dest := { data := src.data.take src.size, size := src.size },
      buffer := buffer + src.size, bufsize := bufsize - src.size,
      mem := writeBytes mem buffer (src.data.take src.size) }

/-! ## URI resolver (src/utils/uri.c)

Backends and plugins are opaque handles; the library calls the resolver
makes (plugin import, backend factory, path resolution, branching, URI
parsing) are modelled by a record of their results.  `error(EXIT_FAILURE,
errnum, msg)` terminates the process; it is modelled as an exceptional
result carrying the errno and the message format string. -/

abbrev Backend := Nat
abbrev Plugin := Nat

/-- A fatal `error(EXIT_FAILURE, errnum, msg)` exit. -/
structure Fatal where
  errnum : Nat
  msg : String
deriving DecidableEq, Repr

/-- The slice of `struct rbh_fsentry` the resolver reads: the mask of
populated fields and the entry ID. -/
structure Fsentry where
  mask : Nat
  id : RbhId
deriving DecidableEq, Repr

/-- Modelled from the spec: `RBH_FP_ID` is declared in `robinhood/fsentry.h`,
which is not among the given sources.  It is the bit of the populated-field
mask that marks the ID field as present; its concrete value is irrelevant
to the claims, only that it is a fixed non-zero bit. -/
def RBH_FP_ID : Nat := 1

/-- The slice of `struct rbh_uri` the resolver reads. -/
structure RbhUri where
  backend : String
  fsname : String
  id : RbhId
deriving DecidableEq, Repr

/-- The slice of `struct rbh_raw_uri` the resolver reads: the fragment, plus
an opaque remainder standing for the other components. -/
structure RawUri where
  fragment : Option (List Char)
  rest : Nat
deriving DecidableEq, Repr

/-- Ghost events recording the observable backend operations the resolver
performs on its success path. -/
inductive UriEvent where
  | resolvedPath (b : Backend) (path : List Char)
  | branchedTo (b : Backend) (id : RbhId)
  | destroyed (b : Backend)
deriving DecidableEq, Repr

/-- Results of the library calls the resolver makes.  `plugin_import`
returns the plugin (or NULL) together with the errno value it leaves when
entered with errno 0.  The `Except Nat` results carry the errno a NULL
return leaves behind. -/
structure UriOps where
  plugin_import : String → Option Plugin × Nat
  dlerrorText : String
  plugin_new : Plugin → String → Except Nat Backend
  percent_decode : List Char → Except Nat (List Char)
  fsentry_from_path : Backend → List Char → Except Nat Fsentry
  branch_impl : Backend → RbhId → Except Nat Backend
  parse_raw_uri : String → Except Nat RawUri
  parse_uri : RawUri → Except Nat RbhUri

/-- `backend_plugin_import`: saves errno, clears it, imports the plugin and
on a NULL result exits fatally, with the dynamic loader diagnostic
`dlerror()` when the import left errno 0 and with the errno otherwise.  On
success the saved errno is restored and returned alongside the plugin. -/
def backend_plugin_import (ops : UriOps) (name : String) (errno0 : Nat) :
    Except Fatal (Plugin × Nat) :=
  match ops.plugin_import name with
  | (none, e) =>
    if e = 0 then
      .error { errnum := 0,
               msg := "rbh_backend_plugin_import: " ++ ops.dlerrorText }
    else
      .error { errnum := e, msg := "rbh_backend_plugin_import" }
  | (some plugin, _) => .ok (plugin, errno0)

/-- `backend_new`: import the plugin named by the backend type, then call
its factory on the filesystem name; a NULL backend is fatal. -/
def backend_new (ops : UriOps) (type fsname : String) : Except Fatal Backend :=
  match backend_plugin_import ops type 0 with
  | .error f => .error f
  | .ok (plugin, _) =>
    match ops.plugin_new plugin fsname with
    | .error e => .error { errnum := e, msg := "rbh_backend_plugin_new" }
    | .ok b => .ok b

/-- Modelled from the spec: the body of `rbh_backend_branch` is not among
the given sources.  Per the spec, branching to a size-0 ID (the
does-not-exist sentinel) fails with the invalid-ID error EINVAL and never
silently succeeds; on a non-sentinel ID it defers to the backend
implementation. -/
def rbh_backend_branch (ops : UriOps) (b : Backend) (id : RbhId) :
    Except Nat Backend :=
  if id.size = 0 then .error EINVAL else ops.branch_impl b id

/-- `backend_from_uri`: instantiate the backend named by the URI, then
either resolve the decoded path to an ID and branch, branch to an embedded
non-empty ID, or return the unbranched backend.  The event list records
the path resolution, the branch and the destruction of the unbranched
backend on the success path. -/
def backend_from_uri (ops : UriOps) (uri : RbhUri) (path : Option (List Char)) :
    Except Fatal (Backend × List UriEvent) :=
  match backend_new ops uri.backend uri.fsname with
  | .error f => .error f
  | .ok backend =>
    match path with
    | some p =>
      match ops.percent_decode p with
      | .error e => .error { errnum := e, msg := "rbh_percent_decode" }
      | .ok p' =>
        match ops.fsentry_from_path backend p' with
        | .error e =>
          .error { errnum := e, msg := "rbh_backend_fsentry_from_path" }
        | .ok fsentry =>
          if fsentry.mask &&& RBH_FP_ID = 0 then
            .error { errnum := ENODATA, msg := "rbh_backend_fsentry_from_path" }
          else
            match rbh_backend_branch ops backend fsentry.id with
            | .error e => .error { errnum := e, msg := "rbh_backend_branch" }
            | .ok branch =>
              .ok (branch, [.resolvedPath backend p',
                            .branchedTo backend fsentry.id,
                            .destroyed backend])
    | none =>
      if uri.id.size ≠ 0 then
        match rbh_backend_branch ops backend uri.id with
        | .error e => .error { errnum := e, msg := "rbh_backend_branch" }
        | .ok branch =>
          .ok (branch, [.branchedTo backend uri.id, .destroyed backend])
      else
        .ok (backend, [])

/-- `backend_from_raw_uri`: parse the raw URI into a `struct rbh_uri` and
resolve it. -/
def backend_from_raw_uri (ops : UriOps) (raw : RawUri)
    (path : Option (List Char)) : Except Fatal (Backend × List UriEvent) :=
  match ops.parse_uri raw with
  | .error e => .error { errnum := e, msg := "rbh_parse_uri" }
  | .ok uri => backend_from_uri ops uri path

/-- The test `raw_uri.fragment && raw_uri.fragment[0] != '['` of
`rbh_backend_from_uri`, on the fragment characters: an empty fragment
starts with the NUL terminator, which differs from the bracket. -/
def fragment_is_path : List Char → Bool
  | [] => true
  | c :: _ => c ≠ '['

/-- `rbh_backend_from_uri`: parse the raw URI; a present fragment that does
not begin with a bracket is repurposed as the entry path and removed from
the raw URI before backend-level parsing. -/
def rbh_backend_from_uri (ops : UriOps) (s : String) :
    Except Fatal (Backend × List UriEvent) :=
  match ops.parse_raw_uri s with
  | .error e => .error { errnum := e, msg := "rbh_parse_raw_uri" }
  | .ok raw =>
    match raw.fragment with
    | some f =>
      if fragment_is_path f then
        backend_from_raw_uri ops { raw with fragment := none } (some f)
      else
        backend_from_raw_uri ops raw none
    | none => backend_from_raw_uri ops raw none

/-! ## Value model (robinhood/value.h, as used by lustre.c)

`struct rbh_value` is a tagged union; the variants lustre.c produces are
embedded as an inductive.  The sstack arena pushes of the C code store
payloads by copy; in the embedding values are immutable data, so a push is
the identity and arena exhaustion is out of scope of the claims. -/

inductive RbhValue where
  | binary (data : List Nat)
  | string (s : String)
  | int32 (i : Int)
  | uint32 (n : Nat)
  | uint64 (n : Nat)
  | sequence (values : List RbhValue)

/-- `struct rbh_value_pair`: one named metadatum. -/
structure RbhValuePair where
  key : String
  value : RbhValue

/-! ## Lustre attribute extractor (lustre.c) -/

/-- `S_IFMT` mask and the file-type tests of sys/stat.h. -/
def S_IFMT : Nat := 0xF000

def S_ISREG (mode : Nat) : Bool := mode &&& S_IFMT = 0x8000

def S_ISDIR (mode : Nat) : Bool := mode &&& S_IFMT = 0x4000

def S_ISLNK (mode : Nat) : Bool := mode &&& S_IFMT = 0xA000

/-- The thread-local file-type flags lustre.c sets once per entry. -/
structure FileFlags where
  is_dir : Bool
  is_reg : Bool
  is_symlink : Bool
deriving DecidableEq, Repr

/-- `LCME_FL_INIT` from the Lustre user headers. -/
def LCME_FL_INIT : Nat := 0x10

/-- `(uint64_t)(-1)`, the placeholder OST index of an uninitialised
component. -/
def UINT64_NEG_ONE : Nat := 2 ^ 64 - 1

/-- Lustre magic numbers from lustre_user.h. -/
def LOV_USER_MAGIC_V1 : Nat := 0x0BD10BD0

def LOV_USER_MAGIC_V3 : Nat := 0x0BD30BD0

def LOV_USER_MAGIC_SPECIFIC : Nat := 0x0BD50BD0

def LOV_USER_MAGIC_COMP_V1 : Nat := 0x0BD60BD0

def LOV_USER_MAGIC_FOREIGN : Nat := 0x0BD70BD0

def LOV_USER_MAGIC_SEL : Nat := 0x0BD80BD0

/-- `struct hsm_user_state` fields read by `xattrs_get_hsm`. -/
structure HsmState where
  hus_states : Nat
  hus_archive_id : Nat
deriving DecidableEq, Repr

/-- The fields `xattrs_get_magic_and_gen` reads out of the
`trusted.lov` xattr buffer: the magic and the two generation fields the
different struct casts select. -/
structure LovBuf where
  lmm_magic : Nat
  lmm_layout_gen : Nat
  lcm_layout_gen : Nat
deriving DecidableEq, Repr

/-- `struct lmv_user_md` fields read by `xattrs_get_mdt_info`;
`lum_mds i` is `lum_objects[i].lum_mds`. -/
structure LmvStripe where
  lum_stripe_count : Nat
  lum_mds : Nat → Nat
  lum_hash_type : Nat

/-- Outcome of one `llapi_layout_ost_index_get` call: a value, the EINVAL
end-of-list signal, or a hard failure returning `rc`. -/
inductive OstRes where
  | ok (v : Nat)
  | einval
  | fail (rc : Int)

/-- The per-component attribute values the `llapi_layout_*_get` calls of
`fill_iterator_data` and `xattrs_layout_iterator` return when they all
succeed. -/
structure CompAttrs where
  stripe_count : Nat
  stripe_size : Nat
  pattern : Nat
  comp_flags : Nat
  pool : String
  ext_begin : Nat
  ext_end : Nat
  mirror_id : Nat
deriving DecidableEq, Repr

/-- One layout component as the llapi getters present it: either some
getter fails (the C code then returns -1) or all attribute getters
succeed; the variable-length OST index fetch is kept separate because its
EINVAL break and failure modes drive the workspace claims. -/
structure CompDesc where
  attrs : Except Int CompAttrs
  ost_get : Nat → OstRes

/-- The layout handle `llapi_layout_get_by_fd` returns, as a record of the
results of the calls made on it.  `nb_comp` collapses the three llapi
calls of `layout_get_nb_comp`; `comps` are the components the composite
iteration visits in order; `root_comp` carries the getter results of the
layout itself on the non-composite path. -/
structure LayoutDesc where
  flags : Except Nat Nat
  is_composite : Bool
  mirror_count : Except Nat Nat
  nb_comp : Except Nat Nat
  comps : List CompDesc
  root_comp : CompDesc

/-- Results of the external calls the extractor makes for one entry.  Each
`Except Nat` error carries the errno the failing call leaves behind (the
failing calls of lustre.c all return -1 by the llapi and syscall
conventions, which is what the callers test for).  `errno_at_retention` is
the ambient errno value when the retention pass runs; it is ambient
process state, not derivable inside the model. -/
structure LustreEnv where
  fd2fid : Except Nat (List Nat)
  hsm : Except Nat HsmState
  layout_get : Except Nat LayoutDesc
  lov_xattr : Except Nat LovBuf
  lmv_ioctl : Except Nat LmvStripe
  file_mdtidx : Except Nat Int
  errno_at_retention : Nat

/-- `xattrs_get_fid`: record the fid as a binary pair. -/
def xattrs_get_fid (env : LustreEnv) : Except Nat (List RbhValuePair) :=
  match env.fd2fid with
  | .error e => .error e
  | .ok fid => .ok [{ key := "fid", value := .binary fid }]

/-- `xattrs_get_hsm`: nothing for non-regular files, otherwise the HSM
state and archive ID. -/
def xattrs_get_hsm (env : LustreEnv) (fl : FileFlags) :
    Except Nat (List RbhValuePair) :=
  if !fl.is_reg then .ok []
  else
    match env.hsm with
    | .error e => .error e
    | .ok hus =>
      .ok [{ key := "hsm_state", value := .uint32 hus.hus_states },
           { key := "hsm_archive_id", value := .uint32 hus.hus_archive_id }]

/-- The magic-number switch of `xattrs_get_magic_and_gen`: the magic
string and the generation field selected by the corresponding struct
cast; an unknown magic is EINVAL. -/
def magic_switch (buf : LovBuf) : Except Nat (String × Nat) :=
  if buf.lmm_magic = LOV_USER_MAGIC_V1 then
    .ok ("LOV_USER_MAGIC_V1", buf.lmm_layout_gen)
  else if buf.lmm_magic = LOV_USER_MAGIC_COMP_V1 then
    .ok ("LOV_USER_MAGIC_COMP_V1", buf.lcm_layout_gen)
  else if buf.lmm_magic = LOV_USER_MAGIC_SEL then
    .ok ("LOV_USER_MAGIC_SEL", buf.lcm_layout_gen)
  else if buf.lmm_magic = LOV_USER_MAGIC_V3 then
    .ok ("LOV_USER_MAGIC_V3", buf.lmm_layout_gen)
  else if buf.lmm_magic = LOV_USER_MAGIC_SPECIFIC then
    .ok ("LOV_USER_MAGIC_SPECIFIC", buf.lmm_layout_gen)
  else if buf.lmm_magic = LOV_USER_MAGIC_FOREIGN then
    .ok ("LOV_USER_MAGIC_FOREIGN", 2 ^ 32 - 1)
  else
    .error EINVAL

/-- `xattrs_get_magic_and_gen`: read the `trusted.lov` xattr and record
the magic string and the layout generation. -/
def xattrs_get_magic_and_gen (env : LustreEnv) :
    Except Nat (List RbhValuePair) :=
  match env.lov_xattr with
  | .error e => .error e
  | .ok buf =>
    match magic_switch buf with
    | .error e => .error e
    | .ok (ms, gen) =>
      .ok [{ key := "magic", value := .string ms },
           { key := "gen", value := .uint32 gen }]

/-- `struct iterator_data`: the per-attribute fixed workspace arrays of
capacity `nb_comp`, the growable OST workspace with its capacity
`ost_size` and fill index `ost_idx`, and the component index.  The calloc
and malloc padding is represented by zero values; only written slots ever
reach the final sequences. -/
structure IterData where
  stripe_count : List RbhValue
  stripe_size : List RbhValue
  mirror_id : List RbhValue
  pattern : List RbhValue
  begin_ : List RbhValue
  flags : List RbhValue
  pool : List RbhValue
  end_ : List RbhValue
  ost : List RbhValue
  comp_index : Nat
  ost_size : Nat
  ost_idx : Nat

/-- `init_iterator_data`: one zeroed block of `nb_xattrs * length` values
split into the per-attribute arrays (the mirror/extent arrays only when
`nb_xattrs >= 6`), plus a `length`-sized OST workspace. -/
def init_iterator_data (length nb_xattrs : Nat) : IterData :=
  { stripe_count := List.replicate length (.uint64 0)
    stripe_size := List.replicate length (.uint64 0)
    pattern := List.replicate length (.uint64 0)
    flags := List.replicate length (.uint64 0)
    pool := List.replicate length (.uint64 0)
    mirror_id := if 6 ≤ nb_xattrs then List.replicate length (.uint64 0) else []
    begin_ := if 6 ≤ nb_xattrs then List.replicate length (.uint64 0) else []
    end_ := if 6 ≤ nb_xattrs then List.replicate length (.uint64 0) else []
    ost := List.replicate length (.uint64 0)
    ost_size := length
    ost_idx := 0
    comp_index := 0 }

/-- `iter_data_ost_try_resize`: grow the OST workspace when the next
`ost_len` items would overflow it; the reallocation preserves the current
contents and extends the capacity by `ost_len`. -/
def iter_data_ost_try_resize (d : IterData) (ost_len : Nat) : IterData :=
  if d.ost_size < d.ost_idx + ost_len then
    { d with
      ost := d.ost ++ List.replicate (d.ost_size + ost_len - d.ost.length)
                        (.uint64 0)
      ost_size := d.ost_size + ost_len }
  else d

/-- `data->ost[data->ost_idx++] = create_uint64_value v`. -/
def ost_append (d : IterData) (v : Nat) : IterData :=
  { d with ost := d.ost.set d.ost_idx (.uint64 v), ost_idx := d.ost_idx + 1 }

/-- The OST fetch loop of `fill_iterator_data`: for the remaining fuel,
fetch index `i`; EINVAL breaks the loop, a hard failure aborts with its
rc, a value is appended at `ost_idx`. -/
def ost_loop (get : Nat → OstRes) (i : Nat) (d : IterData) :
    Nat → Except Int IterData
  | 0 => .ok d
  | n + 1 =>
    match get i with
    | .ok v => ost_loop get (i + 1) (ost_append d v) n
    | .einval => .ok d
    | .fail rc => .error rc

/-- The OST indices the loop discovers starting at `i` with the given
fuel: the values fetched before the first non-value outcome. -/
def ost_fetch_list (get : Nat → OstRes) (i : Nat) : Nat → List Nat
  | 0 => []
  | n + 1 =>
    match get i with
    | .ok v => v :: ost_fetch_list get (i + 1) n
    | .einval => []
    | .fail _ => []

/-- `fill_iterator_data`: store the five per-component attributes at
`index`, then resize the OST workspace for this component (the full
stripe count for an initialised or plain layout, a single placeholder
otherwise) and append its OST items. -/
def fill_iterator_data (composite : Bool) (c : CompDesc) (d : IterData)
    (index : Nat) : Except Int IterData :=
  match c.attrs with
  | .error _ => .error (-1)
  | .ok a =>
    let d1 : IterData :=
      { d with
        stripe_count := d.stripe_count.set index (.uint64 a.stripe_count)
        stripe_size := d.stripe_size.set index (.uint64 a.stripe_size)
        pattern := d.pattern.set index (.uint64 a.pattern)
        flags := d.flags.set index (.uint32 a.comp_flags)
        pool := d.pool.set index (.string a.pool) }
    let init_or_not := a.comp_flags = LCME_FL_INIT ∨ composite = false
    let d2 := iter_data_ost_try_resize d1
      (if init_or_not then a.stripe_count else 1)
    if init_or_not then ost_loop c.ost_get 0 d2 a.stripe_count
    else .ok (ost_append d2 UINT64_NEG_ONE)

/-- `xattrs_layout_iterator`: fill the component data at `comp_index`,
then the extent and mirror ID, and advance the component index. -/
def xattrs_layout_iterator (c : CompDesc) (d : IterData) :
    Except Int IterData :=
  match fill_iterator_data true c d d.comp_index with
  | .error _ => .error (-1)
  | .ok d' =>
    match c.attrs with
    | .error _ => .error (-1)
    | .ok a =>
      .ok { d' with
            begin_ := d'.begin_.set d'.comp_index (.uint64 a.ext_begin)
            end_ := d'.end_.set d'.comp_index (.uint64 a.ext_end)
            mirror_id := d'.mirror_id.set d'.comp_index (.uint32 a.mirror_id)
            comp_index := d'.comp_index + 1 }

/-- `llapi_layout_comp_iterate` driving `xattrs_layout_iterator` over the
components in order, aborting at the first failure. -/
def layout_comp_iterate : List CompDesc → IterData → Except Int IterData
  | [], d => .ok d
  | c :: cs, d =>
    match xattrs_layout_iterator c d with
    | .error rc => .error rc
    | .ok d' => layout_comp_iterate cs d'

/-- The branch of `xattrs_get_layout` that populates the workspace: the
composite iteration, or a single `fill_iterator_data` at index 0. -/
def layout_iterate_data (composite : Bool) (L : LayoutDesc) (d : IterData) :
    Except Int IterData :=
  if composite then layout_comp_iterate L.comps d
  else fill_iterator_data false L.root_comp d 0

/-- The key array of `xattrs_fill_layout`. -/
def layout_keys : List String :=
  ["stripe_count", "stripe_size", "pattern", "comp_flags", "pool",
   "mirror_id", "begin", "end"]

/-- The value array of `xattrs_fill_layout`, in the same order as the
keys. -/
def layout_values (d : IterData) : List (List RbhValue) :=
  [d.stripe_count, d.stripe_size, d.pattern, d.flags, d.pool,
   d.mirror_id, d.begin_, d.end_]

/-- `xattrs_fill_layout`: push the first `nb_xattrs` attribute arrays as
sequences of the first `comp_index` values each, then the OST workspace as
a sequence of its first `ost_idx` values. -/
def xattrs_fill_layout (d : IterData) (nb_xattrs : Nat) : List RbhValuePair :=
  ((layout_keys.zip (layout_values d)).take nb_xattrs).map
    (fun kv => { key := kv.1, value := .sequence (kv.2.take d.comp_index) })
  ++ [{ key := "ost", value := .sequence (d.ost.take d.ost_idx) }]

/-- `xattrs_get_layout`: nothing for symlinks; otherwise the layout flags,
the magic and generation for regular files, the mirror count and true
component count for composite layouts, and the per-component sequences
assembled through the iterator workspace. -/
def xattrs_get_layout (env : LustreEnv) (fl : FileFlags) :
    Except Nat (List RbhValuePair) :=
  if fl.is_symlink then .ok []
  else
    match env.layout_get with
    | .error e => .error e
    | .ok L =>
      match L.flags with
      | .error e => .error e
      | .ok flags =>
        match (if fl.is_reg then xattrs_get_magic_and_gen env else .ok []) with
        | .error e => .error e
        | .ok mg =>
          match (if L.is_composite then
                   match L.mirror_count, L.nb_comp with
                   | .error e, _ => .error e
                   | .ok _, .error e => .error e
                   | .ok mc, .ok nc => .ok (some (mc, nc))
                 else .ok none : Except Nat (Option (Nat × Nat))) with
          | .error e => .error e
          | .ok compInfo =>
            let nb_comp := match compInfo with
              | some (_, nc) => nc
              | none => 1
            let nb_xattrs := if L.is_composite then 8 else 5
            let mcPairs : List RbhValuePair := match compInfo with
              | some (mc, _) => [{ key := "mirror_count", value := .uint32 mc }]
              | none => []
            match layout_iterate_data L.is_composite L
                    (init_iterator_data nb_comp nb_xattrs) with
            | .error _ => .error EINVAL
            | .ok d =>
              .ok ({ key := "flags", value := .uint32 flags } ::
                   (mg ++ mcPairs ++ xattrs_fill_layout d nb_xattrs))

/-- `xattrs_get_mdt_info`: for directories, the MDT striping read through
the LMV ioctl, where an ENODATA failure is absorbed as zero pairs; for
anything else but symlinks, the single MDT index. -/
def xattrs_get_mdt_info (env : LustreEnv) (fl : FileFlags) :
    Except Nat (List RbhValuePair) :=
  if fl.is_dir then
    match env.lmv_ioctl with
    | .error e => if e = ENODATA then .ok [] else .error e
    | .ok lum =>
      .ok [{ key := "mdt_idx",
             value := .sequence ((List.range lum.lum_stripe_count).map
               (fun i => .uint32 (lum.lum_mds i))) },
           { key := "mdt_hash", value := .uint32 lum.lum_hash_type },
           { key := "mdt_count", value := .uint32 lum.lum_stripe_count }]
  else if !fl.is_symlink then
    match env.file_mdtidx with
    | .error e => .error e
    | .ok mdt => .ok [{ key := "mdt_index", value := .int32 mdt }]
  else .ok []

/-! ## Retention xattr rewrite (xattrs_get_retention) -/

/-- `UINT64_MAX_STR_LEN`. -/
def UINT64_MAX_STR_LEN : Nat := 22

def isDigitByte (c : Nat) : Bool := 48 ≤ c && c ≤ 57

/-- `isspace` of the C locale, on a byte. -/
def isSpaceByte (c : Nat) : Bool := c = 32 || (9 ≤ c && c ≤ 13)

/-- Length of the longest prefix satisfying `p`. -/
def countWhile (p : Nat → Bool) : List Nat → Nat
  | [] => 0
  | c :: cs => if p c then countWhile p cs + 1 else 0

/-- Base-10 accumulation of a digit-byte list. -/
def digitsVal : List Nat → Nat → Nat
  | [], acc => acc
  | c :: cs, acc => digitsVal cs (acc * 10 + (c - 48))

/-- Result of `strtoul(s, &end, 10)`: the value, the offset `end - s`, and
whether ERANGE was raised.  When no conversion is performed, `end` is
reset to `s` itself. -/
structure StrtoulRes where
  value : Nat
  endPos : Nat
  erange : Bool
deriving DecidableEq, Repr

/-- `strtoul` in base 10 over a byte string: optional leading whitespace,
an optional sign, then a maximal digit run.  A minus sign negates the
magnitude modulo 2^64; a magnitude above ULONG_MAX yields ULONG_MAX with
ERANGE; an empty digit run performs no conversion. -/
def strtoul10 (s : List Nat) : StrtoulRes :=
  let ws := countWhile isSpaceByte s
  let rest1 := s.drop ws
  let neg : Bool := match rest1 with
    | 45 :: _ => true
    | _ => false
  let sgn : Nat := match rest1 with
    | 45 :: _ => 1
    | 43 :: _ => 1
    | _ => 0
  let rest2 := rest1.drop sgn
  let nd := countWhile isDigitByte rest2
  if nd = 0 then { value := 0, endPos := 0, erange := false }
  else
    let m := digitsVal (rest2.take nd) 0
    if 2 ^ 64 - 1 < m then
      { value := 2 ^ 64 - 1, endPos := ws + sgn + nd, erange := true }
    else
      { value := if neg then (2 ^ 64 - m) % 2 ^ 64 else m
        endPos := ws + sgn + nd, erange := false }

/-- The filter of the retention loop: the pair key is the retention xattr
name and the binary payload is shorter than `UINT64_MAX_STR_LEN`.  The C
code reads the binary union fields unconditionally; the inode xattr pairs
it scans are produced as binary values, so the embedding restricts the
union read to them. -/
def retention_candidate (p : RbhValuePair) : Bool :=
  p.key = "user.ccc_expires_at" &&
    (match p.value with
     | .binary data => data.length < UINT64_MAX_STR_LEN
     | _ => false)

/-- The acceptance test of the retention rewrite, given the ambient errno
`e0` at entry: after `strtoul` on the NUL-terminated copy, errno must be
clear (no ERANGE and no stale errno), a conversion must have happened, and
the end pointer must sit on a NUL byte. -/
def retention_accepts (e0 : Nat) (p : RbhValuePair) : Bool :=
  match p.value with
  | .binary data =>
    let tmp := data ++ [0]
    let r := strtoul10 tmp
    let errnoAfter := if r.erange then ERANGE else e0
    !(errnoAfter ≠ 0 || (r.value = 0 && r.endPos = 0) ||
      tmp.getD r.endPos 0 ≠ 0)
  | _ => false

/-- The body of the retention loop on a candidate pair: replace it by a
same-key UInt64 pair holding the parsed value when the parse is accepted,
leave it unchanged otherwise. -/
def retention_rewrite (e0 : Nat) (p : RbhValuePair) : RbhValuePair :=
  match p.value with
  | .binary data =>
    if retention_accepts e0 p then
      { key := p.key, value := .uint64 (strtoul10 (data ++ [0])).value }
    else p
  | _ => p

/-- `xattrs_get_retention`: scan the inode xattr pairs for the first
candidate; rewrite or keep it and stop there (both the accepted and the
rejected parse break the loop), leaving every other pair unchanged. -/
def xattrs_get_retention (e0 : Nat) : List RbhValuePair → List RbhValuePair
  | [] => []
  | p :: rest =>
    if retention_candidate p then retention_rewrite e0 p :: rest
    else p :: xattrs_get_retention e0 rest

/-- The flags the callback derives from the entry mode. -/
def flagsOf (mode : Nat) : FileFlags :=
  { is_dir := S_ISDIR mode, is_reg := S_ISREG mode, is_symlink := S_ISLNK mode }

/-- `lustre_ns_xattrs_callback`: set the file-type flags from the mode,
run the four extraction functions in their fixed order, aborting on the
first failure and accumulating the written pairs otherwise, then run the
retention pass over the inode xattrs; the result is the pair count, the
written pairs and the updated inode xattrs. -/
def lustre_ns_xattrs_callback (env : LustreEnv) (mode : Nat)
    (inode_xattrs : List RbhValuePair) :
    Except Nat (Nat × List RbhValuePair × List RbhValuePair) :=
  let fl := flagsOf mode
  match xattrs_get_fid env with
  | .error e => .error e
  | .ok l1 =>
    match xattrs_get_hsm env fl with
    | .error e => .error e
    | .ok l2 =>
      match xattrs_get_layout env fl with
      | .error e => .error e
      | .ok l3 =>
        match xattrs_get_mdt_info env fl with
        | .error e => .error e
        | .ok l4 =>
          .ok ((l1 ++ l2 ++ l3 ++ l4).length, l1 ++ l2 ++ l3 ++ l4,
               xattrs_get_retention env.errno_at_retention inode_xattrs)

/-- The pair count the callback returns, when it succeeds. -/
def callbackCount (env : LustreEnv) (mode : Nat)
    (inode_xattrs : List RbhValuePair) : Option Nat :=
  match lustre_ns_xattrs_callback env mode inode_xattrs with
  | .ok (n, _, _) => some n
  | .error _ => none

/-- The OST items one component contributes to the workspace, in discovery
order: the fetched prefix of its stripe-count many indices for an
initialised or plain layout, the single placeholder otherwise. -/
def comp_items (composite : Bool) (c : CompDesc) : List Nat :=
  match c.attrs with
  | .error _ => []
  | .ok a =>
    if a.comp_flags = LCME_FL_INIT ∨ composite = false then
      ost_fetch_list c.ost_get 0 a.stripe_count
    else [UINT64_NEG_ONE]

/-- A component whose attribute getters succeed and whose OST fetches
within the stripe count never hard-fail (EINVAL breaks are allowed). -/
def comp_ok (c : CompDesc) : Prop :=
  ∃ a, c.attrs = Except.ok a ∧
    ∀ i, i < a.stripe_count → ∀ rc, c.ost_get i ≠ OstRes.fail rc

/-- The concatenation, in component order, of the OST items every
component contributes: the full discovered OST list of the entry. -/
def all_comp_items (composite : Bool) : List CompDesc → List Nat
  | [] => []
  | c :: cs => comp_items composite c ++ all_comp_items composite cs

/-! ## Concrete instances used by the witnesses -/

/-- A happy-path operation record: the plugin imports, the factory yields
backend 7, paths decode to themselves, path resolution yields an entry
with the ID field populated, and branching yields backend 8. -/
def opsW : UriOps :=
  { plugin_import := fun _ => (some 1, 0)
    dlerrorText := "libfoo.so: cannot open shared object file"
    plugin_new := fun _ _ => .ok 7
    percent_decode := fun p => .ok p
    fsentry_from_path := fun _ _ => .ok { mask := 1, id := { data := [1, 2], size := 2 } }
    branch_impl := fun _ _ => .ok 8
    parse_raw_uri := fun _ => .ok { fragment := some ['a'], rest := 0 }
    parse_uri := fun _ =>
      .ok { backend := "posix", fsname := "/mnt/fs", id := { data := [3], size := 1 } } }

/-- The happy-path operations with a bracket-led raw fragment. -/
def opsBracket : UriOps :=
  { opsW with parse_raw_uri := fun _ => .ok { fragment := some ['[', 'x'], rest := 0 } }

/-- The happy-path operations with a failing plugin import that leaves
errno 0, so that only the dynamic loader diagnostic is available. -/
def opsNoPlugin : UriOps :=
  { opsW with plugin_import := fun _ => (none, 0) }

/-- The happy-path operations with a path resolution whose entry lacks
the ID field in its populated mask. -/
def opsNoId : UriOps :=
  { opsW with
    fsentry_from_path := fun _ _ => .ok { mask := 0, id := { data := [], size := 0 } } }

/-- A URI with a non-empty embedded ID. -/
def uriW : RbhUri :=
  { backend := "posix", fsname := "/mnt/fs", id := { data := [3], size := 1 } }

/-- A URI with the size-0 sentinel ID. -/
def uriRootW : RbhUri :=
  { backend := "posix", fsname := "/mnt/fs", id := { data := [], size := 0 } }

/-- A plain (non-composite) layout with one initialised component of
stripe count 2 whose OST indices are 10 and 11. -/
def layoutW : LayoutDesc :=
  { flags := .ok 0
    is_composite := false
    mirror_count := .ok 0
    nb_comp := .ok 1
    comps := []
    root_comp :=
      { attrs := .ok { stripe_count := 2, stripe_size := 65536, pattern := 1,
                       comp_flags := LCME_FL_INIT, pool := "pool0",
                       ext_begin := 0, ext_end := 100, mirror_id := 0 }
        ost_get := fun i => .ok (10 + i) } }

/-- A happy-path extraction environment. -/
def envW : LustreEnv :=
  { fd2fid := .ok [1, 2, 3]
    hsm := .ok { hus_states := 5, hus_archive_id := 2 }
    layout_get := .ok layoutW
    lov_xattr := .ok { lmm_magic := LOV_USER_MAGIC_V1, lmm_layout_gen := 3,
                       lcm_layout_gen := 4 }
    lmv_ioctl := .ok { lum_stripe_count := 2, lum_mds := fun i => i,
                       lum_hash_type := 1 }
    file_mdtidx := .ok 0
    errno_at_retention := 0 }

/-- The happy-path environment with the LMV striping ioctl failing with
ENODATA. -/
def envMdtEnodata : LustreEnv := { envW with lmv_ioctl := .error ENODATA }

/-- The happy-path environment with a failing fid lookup. -/
def envFidFail : LustreEnv := { envW with fd2fid := .error 5 }

/-- Directory file-type flags. -/
def flDir : FileFlags := { is_dir := true, is_reg := false, is_symlink := false }

/-- An initialised component of stripe count 2 with OST indices 20 and
21. -/
def compC1 : CompDesc :=
  { attrs := .ok { stripe_count := 2, stripe_size := 4096, pattern := 0,
                   comp_flags := LCME_FL_INIT, pool := "p1",
                   ext_begin := 0, ext_end := 50, mirror_id := 1 }
    ost_get := fun i => .ok (20 + i) }

/-- An uninitialised component, which contributes the single placeholder
OST item. -/
def compC2 : CompDesc :=
  { attrs := .ok { stripe_count := 4, stripe_size := 4096, pattern := 0,
                   comp_flags := 0, pool := "p2",
                   ext_begin := 50, ext_end := 100, mirror_id := 2 }
    ost_get := fun _ => .einval }

/-- A composite layout with the two components above. -/
def layoutC : LayoutDesc :=
  { flags := .ok 0
    is_composite := true
    mirror_count := .ok 1
    nb_comp := .ok 2
    comps := [compC1, compC2]
    root_comp := compC1 }

/-! # Theorems -/

/-! ## C1 -/

/-- C1: ID bounded-buffer copy is atomic: whenever the remaining capacity
is smaller than the source size, `rbh_id_copy` fails with ENOBUFS leaving
the buffer cursor, the remaining capacity and the backing memory
untouched; otherwise it succeeds, advances the cursor by exactly the
source size and decrements the remaining capacity by the same amount. -/
theorem id_copy_atomic (src dest0 : RbhId) (mem : List Nat)
    (buffer bufsize : Nat) :
    (bufsize < src.size →
      rbh_id_copy src dest0 mem buffer bufsize =
        { rc := -1, errnoSet := some ENOBUFS, dest := dest0,
          buffer := buffer, bufsize := bufsize, mem := mem }) ∧
    (src.size ≤ bufsize →
      (rbh_id_copy src dest0 mem buffer bufsize).rc = 0 ∧
      (rbh_id_copy src dest0 mem buffer bufsize).errnoSet = none ∧
      (rbh_id_copy src dest0 mem buffer bufsize).buffer = buffer + src.size ∧
      (rbh_id_copy src dest0 mem buffer bufsize).bufsize + src.size = bufsize) := by
  constructor
  · intro h
    simp [rbh_id_copy, h]
  · intro h
    have h' : ¬bufsize < src.size := not_lt.mpr h
    refine ⟨by simp [rbh_id_copy, h'], by simp [rbh_id_copy, h'],
            by simp [rbh_id_copy, h'], ?_⟩
    simp only [rbh_id_copy, h', if_false]
    omega

/-- Witness for C1 at concrete inputs: a 3-byte ID against capacity 2
fails untouched, and a 2-byte ID against capacity 3 advances the cursor
by 2. -/
theorem id_copy_atomic_witness :
    rbh_id_copy { data := [7, 8, 9], size := 3 } { data := [], size := 0 }
        [0, 0] 0 2 =
      { rc := -1, errnoSet := some ENOBUFS, dest := { data := [], size := 0 },
        buffer := 0, bufsize := 2, mem := [0, 0] } ∧
    (rbh_id_copy { data := [7, 8], size := 2 } { data := [], size := 0 }
        [0, 0, 0] 0 3).buffer = 0 + 2 := by
  exact ⟨(id_copy_atomic { data := [7, 8, 9], size := 3 } { data := [], size := 0 }
            [0, 0] 0 2).1 (by decide),
         ((id_copy_atomic { data := [7, 8], size := 2 } { data := [], size := 0 }
            [0, 0, 0] 0 3).2 (by decide)).2.2.1⟩

/-! ## C2 -/

/-- C2: for a URI carrying an entry path, the resolver decodes the path,
resolves it against the freshly instantiated backend, branches the backend
to the resolved ID, destroys the unbranched backend and returns the
branch; when the resolved entry does not have the ID bit in its populated
mask, resolution fails fatally with ENODATA instead of returning a
backend. -/
theorem uri_path_resolution (ops : UriOps) (uri : RbhUri) (p p' : List Char)
    (b : Backend) (e : Fsentry)
    (hb : backend_new ops uri.backend uri.fsname = .ok b)
    (hd : ops.percent_decode p = .ok p')
    (hf : ops.fsentry_from_path b p' = .ok e) :
    (e.mask &&& RBH_FP_ID = 0 →
      backend_from_uri ops uri (some p) =
        .error { errnum := ENODATA, msg := "rbh_backend_fsentry_from_path" }) ∧
    (e.mask &&& RBH_FP_ID ≠ 0 → ∀ br, rbh_backend_branch ops b e.id = .ok br →
      backend_from_uri ops uri (some p) =
        .ok (br, [.resolvedPath b p', .branchedTo b e.id, .destroyed b])) := by
  constructor
  · intro hm
    simp [backend_from_uri, hb, hd, hf, hm]
  · intro hm br hbr
    simp [backend_from_uri, hb, hd, hf, hm, hbr]

/-- Witness for C2 at concrete inputs: the happy-path operations resolve
the path to an entry with ID bit set and data [1, 2], and the resolver
returns backend 8 after destroying backend 7; the no-ID operations fail
with ENODATA. -/
theorem uri_path_resolution_witness :
    backend_from_uri opsW uriW (some ['a']) =
      .ok (8, [.resolvedPath 7 ['a'],
               .branchedTo 7 { data := [1, 2], size := 2 }, .destroyed 7]) ∧
    backend_from_uri opsNoId uriW (some ['a']) =
      .error { errnum := ENODATA, msg := "rbh_backend_fsentry_from_path" } := by
  exact ⟨(uri_path_resolution opsW uriW ['a'] ['a'] 7
            { mask := 1, id := { data := [1, 2], size := 2 } } rfl rfl rfl).2
            (by decide) 8 rfl,
         (uri_path_resolution opsNoId uriW ['a'] ['a'] 7
            { mask := 0, id := { data := [], size := 0 } } rfl rfl rfl).1
            (by decide)⟩

/-! ## C3 -/

/-- C3: for a URI with no entry path, a non-empty embedded ID makes the
resolver branch the backend directly to that ID, destroy the unbranched
backend and return the branch; with neither path nor non-empty ID it
returns the unbranched backend with no further backend operation. -/
theorem uri_id_or_root (ops : UriOps) (uri : RbhUri) (b : Backend)
    (hb : backend_new ops uri.backend uri.fsname = .ok b) :
    (uri.id.size ≠ 0 → ∀ br, rbh_backend_branch ops b uri.id = .ok br →
      backend_from_uri ops uri none =
        .ok (br, [.branchedTo b uri.id, .destroyed b])) ∧
    (uri.id.size = 0 → backend_from_uri ops uri none = .ok (b, [])) := by
  constructor
  · intro hz br hbr
    simp [backend_from_uri, hb, hz, hbr]
  · intro hz
    simp [backend_from_uri, hb, hz]

/-- Witness for C3 at concrete inputs: with the embedded 1-byte ID the
resolver returns branch 8 and destroys backend 7; with the size-0 URI it
returns backend 7 unbranched. -/
theorem uri_id_or_root_witness :
    backend_from_uri opsW uriW none =
      .ok (8, [.branchedTo 7 { data := [3], size := 1 }, .destroyed 7]) ∧
    backend_from_uri opsW uriRootW none = .ok (7, []) := by
  exact ⟨(uri_id_or_root opsW uriW 7 rfl).1 (by decide) 8 rfl,
         (uri_id_or_root opsW uriRootW 7 rfl).2 rfl⟩

/-! ## C4 -/

/-- C4: a size-0 ID is the does-not-exist sentinel: branching to it fails
with the invalid-ID error EINVAL no matter what the backend implementation
would do, and the URI resolver, the one consumer of embedded IDs in the
sources, treats a size-0 embedded ID as absent and returns the unbranched
backend without branching. -/
theorem id_zero_sentinel :
    (∀ (ops : UriOps) (b : Backend) (id : RbhId), id.size = 0 →
      rbh_backend_branch ops b id = .error EINVAL) ∧
    (∀ (ops : UriOps) (uri : RbhUri) (b : Backend),
      backend_new ops uri.backend uri.fsname = .ok b → uri.id.size = 0 →
      backend_from_uri ops uri none = .ok (b, [])) := by
  constructor
  · intro ops b id hz
    simp [rbh_backend_branch, hz]
  · intro ops uri b hb hz
    simp [backend_from_uri, hb, hz]

/-- Witness for C4 at concrete inputs: branching backend 7 to the size-0
sentinel fails with EINVAL even though the underlying implementation would
return backend 8, and the resolver returns backend 7 unbranched on the
size-0 URI. -/
theorem id_zero_sentinel_witness :
    rbh_backend_branch opsW 7 { data := [], size := 0 } = .error EINVAL ∧
    backend_from_uri opsW uriRootW none = .ok (7, []) := by
  exact ⟨id_zero_sentinel.1 opsW 7 { data := [], size := 0 } rfl,
         id_zero_sentinel.2 opsW uriRootW 7 rfl rfl⟩

/-! ## C6 -/

/-- C6: a present raw-URI fragment that does not begin with a bracket is
repurposed as the entry path and removed from the raw URI before
backend-level parsing; a bracket-led fragment is left in place and no path
is extracted. -/
theorem fragment_path_repurpose (ops : UriOps) (s : String) (raw : RawUri)
    (hparse : ops.parse_raw_uri s = .ok raw) :
    (∀ f, raw.fragment = some f → f.head? ≠ some '[' →
      rbh_backend_from_uri ops s =
        backend_from_raw_uri ops { raw with fragment := none } (some f)) ∧
    (∀ rest, raw.fragment = some ('[' :: rest) →
      rbh_backend_from_uri ops s = backend_from_raw_uri ops raw none) := by
  constructor
  · intro f hf hh
    have hp : fragment_is_path f = true := by
      cases f with
      | nil => rfl
      | cons c cs =>
        have hc : c ≠ '[' := by
          intro hc
          exact hh (by simp [hc])
        simp [fragment_is_path, hc]
    simp [rbh_backend_from_uri, hparse, hf, hp]
  · intro rest hf
    simp [rbh_backend_from_uri, hparse, hf, fragment_is_path]

/-- Witness for C6 at concrete inputs: the fragment [a] is moved out of
the raw URI as the path, while the bracket-led fragment is kept with no
path. -/
theorem fragment_path_repurpose_witness :
    rbh_backend_from_uri opsW "posix://fs" =
      backend_from_raw_uri opsW { fragment := none, rest := 0 } (some ['a']) ∧
    rbh_backend_from_uri opsBracket "posix://fs" =
      backend_from_raw_uri opsBracket { fragment := some ['[', 'x'], rest := 0 }
        none := by
  exact ⟨(fragment_path_repurpose opsW "posix://fs"
            { fragment := some ['a'], rest := 0 } rfl).1 ['a'] rfl (by decide),
         (fragment_path_repurpose opsBracket "posix://fs"
            { fragment := some ['[', 'x'], rest := 0 } rfl).2 ['x'] rfl⟩

/-! ## C7 -/

/-- C7: a failing plugin import is fatal to the resolution attempt and is
never swallowed: when the import leaves errno 0 the fatal diagnostic
carries the dynamic loader text verbatim, and when it sets an errno the
fatal diagnostic carries that errno; a successful import restores the
saved errno. -/
theorem plugin_import_diagnostic (ops : UriOps) (name : String) (errno0 : Nat) :
    (∀ e, ops.plugin_import name = (none, e) →
      (e = 0 → backend_plugin_import ops name errno0 =
        .error { errnum := 0,
                 msg := "rbh_backend_plugin_import: " ++ ops.dlerrorText }) ∧
      (e ≠ 0 → backend_plugin_import ops name errno0 =
        .error { errnum := e, msg := "rbh_backend_plugin_import" })) ∧
    (∀ p e, ops.plugin_import name = (some p, e) →
      backend_plugin_import ops name errno0 = .ok (p, errno0)) := by
  constructor
  · intro e h
    constructor
    · intro he
      subst he
      simp [backend_plugin_import, h]
    · intro he
      simp [backend_plugin_import, h, he]
  · intro p e h
    simp [backend_plugin_import, h]

/-- Witness for C7 at concrete inputs: the failing plugin lookup with
errno 0 is fatal with the loader diagnostic preserved verbatim, and the
successful one returns the plugin with errno restored. -/
theorem plugin_import_diagnostic_witness :
    backend_plugin_import opsNoPlugin "posix" 5 =
      .error { errnum := 0,
               msg := "rbh_backend_plugin_import: " ++
                 "libfoo.so: cannot open shared object file" } ∧
    backend_plugin_import opsW "posix" 5 = .ok (1, 5) := by
  exact ⟨((plugin_import_diagnostic opsNoPlugin "posix" 5).1 0 rfl).1 rfl,
         (plugin_import_diagnostic opsW "posix" 5).2 1 0 rfl⟩

/-! ## C8 -/

/-- C8 counterexample: the claim states that no component of the
extraction pipeline swallows an error, but when the LMV striping ioctl
fails with ENODATA on a directory, `xattrs_get_mdt_info` absorbs the
failure and reports success with zero pairs instead of signalling it. -/
theorem mdt_enodata_swallowed_cex :
    envMdtEnodata.lmv_ioctl = .error ENODATA ∧
    xattrs_get_mdt_info envMdtEnodata flDir = .ok [] :=
  ⟨rfl, rfl⟩

/-- C8 amended: the callback runs the four extraction functions in the
fixed order fid, hsm, layout, mdt-info, returns the total pair count on
success, and propagates the failure of any of the four instead of
substituting a default; however, inside `xattrs_get_mdt_info` an ENODATA
failure of the directory-striping ioctl is absorbed as zero pairs, so not
every inner query error reaches the callback. -/
theorem callback_order_and_propagation :
    (∀ (env : LustreEnv) (mode : Nat) (xs : List RbhValuePair) l1 l2 l3 l4,
      xattrs_get_fid env = .ok l1 →
      xattrs_get_hsm env (flagsOf mode) = .ok l2 →
      xattrs_get_layout env (flagsOf mode) = .ok l3 →
      xattrs_get_mdt_info env (flagsOf mode) = .ok l4 →
      lustre_ns_xattrs_callback env mode xs =
        .ok ((l1 ++ l2 ++ l3 ++ l4).length, l1 ++ l2 ++ l3 ++ l4,
             xattrs_get_retention env.errno_at_retention xs)) ∧
    (∀ (env : LustreEnv) (mode : Nat) (xs : List RbhValuePair) e,
      xattrs_get_fid env = .error e →
      lustre_ns_xattrs_callback env mode xs = .error e) ∧
    (∀ (env : LustreEnv) (mode : Nat) (xs : List RbhValuePair) l1 e,
      xattrs_get_fid env = .ok l1 →
      xattrs_get_hsm env (flagsOf mode) = .error e →
      lustre_ns_xattrs_callback env mode xs = .error e) ∧
    (∀ (env : LustreEnv) (mode : Nat) (xs : List RbhValuePair) l1 l2 e,
      xattrs_get_fid env = .ok l1 →
      xattrs_get_hsm env (flagsOf mode) = .ok l2 →
      xattrs_get_layout env (flagsOf mode) = .error e →
      lustre_ns_xattrs_callback env mode xs = .error e) ∧
    (∀ (env : LustreEnv) (mode : Nat) (xs : List RbhValuePair) l1 l2 l3 e,
      xattrs_get_fid env = .ok l1 →
      xattrs_get_hsm env (flagsOf mode) = .ok l2 →
      xattrs_get_layout env (flagsOf mode) = .ok l3 →
      xattrs_get_mdt_info env (flagsOf mode) = .error e →
      lustre_ns_xattrs_callback env mode xs = .error e) ∧
    (∀ (env : LustreEnv) (fl : FileFlags), fl.is_dir = true →
      env.lmv_ioctl = .error ENODATA → xattrs_get_mdt_info env fl = .ok []) := by
  refine ⟨?_, ?_, ?_, ?_, ?_, ?_⟩
  · intro env mode xs l1 l2 l3 l4 h1 h2 h3 h4
    simp [lustre_ns_xattrs_callback, h1, h2, h3, h4]
  · intro env mode xs e h1
    simp [lustre_ns_xattrs_callback, h1]
  · intro env mode xs l1 e h1 h2
    simp [lustre_ns_xattrs_callback, h1, h2]
  · intro env mode xs l1 l2 e h1 h2 h3
    simp [lustre_ns_xattrs_callback, h1, h2, h3]
  · intro env mode xs l1 l2 l3 e h1 h2 h3 h4
    simp [lustre_ns_xattrs_callback, h1, h2, h3, h4]
  · intro env fl hd he
    simp [xattrs_get_mdt_info, hd, he, ENODATA]

/-- Witness for C8 at concrete inputs: on a symlink only the fid function
writes a pair and the callback returns count 1, and a failing fid lookup
propagates its error. -/
theorem callback_order_and_propagation_witness :
    lustre_ns_xattrs_callback envW 0xA000 [] =
      .ok (1, [{ key := "fid", value := .binary [1, 2, 3] }], []) ∧
    lustre_ns_xattrs_callback envFidFail 0xA000 [] = .error 5 := by
  constructor
  · have h := callback_order_and_propagation.1 envW 0xA000 []
      [{ key := "fid", value := .binary [1, 2, 3] }] [] [] [] rfl rfl rfl rfl
    simpa using h
  · exact callback_order_and_propagation.2.1 envFidFail 0xA000 [] 5 rfl

/-! ## C10 -/

/-- C10: attribute extraction is mode-gated: the HSM extractor writes zero
pairs and succeeds for every non-regular entry whatever the environment
holds (so no HSM query can influence the result), the layout extractor
writes zero pairs and succeeds for every symlink likewise, and the
callback pair count differs between a regular file and a symlink of the
same environment. -/
theorem mode_gated_extraction :
    (∀ (env : LustreEnv) (fl : FileFlags), fl.is_reg = false →
      xattrs_get_hsm env fl = .ok []) ∧
    (∀ (env : LustreEnv) (fl : FileFlags), fl.is_symlink = true →
      xattrs_get_layout env fl = .ok []) ∧
    callbackCount envW 0x8000 [] ≠ callbackCount envW 0xA000 [] := by
  refine ⟨?_, ?_, ?_⟩
  · intro env fl h
    simp [xattrs_get_hsm, h]
  · intro env fl h
    simp [xattrs_get_layout, h]
  · decide

/-- Witness for C10 at concrete inputs: the HSM extractor is empty on a
directory and the layout extractor is empty on a symlink, against the
happy-path environment whose queries would otherwise produce pairs. -/
theorem mode_gated_extraction_witness :
    xattrs_get_hsm envW flDir = .ok [] ∧
    xattrs_get_layout envW
      { is_dir := false, is_reg := false, is_symlink := true } = .ok [] := by
  exact ⟨mode_gated_extraction.1 envW flDir rfl,
         mode_gated_extraction.2.1 envW
           { is_dir := false, is_reg := false, is_symlink := true } rfl⟩

/-! ## C9 -/

/-- C9 counterexample: the two-byte value "-5" (bytes 45, 53) is not a
non-negative decimal integer, yet the retention pass rewrites the pair:
strtoul accepts the sign and negates modulo 2^64, so the pair becomes
UInt64 2^64 - 5 instead of being left unchanged. -/
theorem retention_sign_rewrite_cex :
    ([45, 53].all isDigitByte = false) ∧
    xattrs_get_retention 0
        [{ key := "user.ccc_expires_at", value := .binary [45, 53] }] =
      [{ key := "user.ccc_expires_at",
         value := .uint64 18446744073709551611 }] ∧
    xattrs_get_retention 0
        [{ key := "user.ccc_expires_at", value := .binary [45, 53] }] ≠
      [{ key := "user.ccc_expires_at", value := .binary [45, 53] }] := by
  refine ⟨by decide, by rfl, ?_⟩
  intro h
  have h2 : ([{ key := "user.ccc_expires_at",
                value := RbhValue.uint64 18446744073709551611 }] :
      List RbhValuePair) =
      [{ key := "user.ccc_expires_at", value := RbhValue.binary [45, 53] }] := h
  simp at h2

/-- C9 amended: the retention pass rewrites at most the first pair whose
key is the retention xattr and whose binary value is shorter than 22
bytes; that pair is replaced in place by a same-key UInt64 pair holding
the strtoul base-10 result exactly when the ambient errno at entry is
clear, strtoul performs a conversion with no range error (leading
whitespace and an optional sign are accepted, a minus negates modulo
2^64) and the byte after the consumed run is the NUL terminator; in every
other case the candidate pair is left unchanged, and all other pairs are
always left unchanged. -/
theorem retention_rewrite_characterized (e0 : Nat)
    (pre rest : List RbhValuePair) (p : RbhValuePair)
    (hpre : ∀ q ∈ pre, retention_candidate q = false)
    (hp : retention_candidate p = true) :
    xattrs_get_retention e0 (pre ++ p :: rest) =
      pre ++ retention_rewrite e0 p :: rest ∧
    (∀ data, p.value = .binary data → retention_accepts e0 p = true →
      retention_rewrite e0 p =
        { key := p.key, value := .uint64 (strtoul10 (data ++ [0])).value }) ∧
    (retention_accepts e0 p = false → retention_rewrite e0 p = p) ∧
    (∀ xs : List RbhValuePair, (∀ q ∈ xs, retention_candidate q = false) →
      xattrs_get_retention e0 xs = xs) := by
  refine ⟨?_, ?_, ?_, ?_⟩
  · induction pre with
    | nil => simp [xattrs_get_retention, hp]
    | cons q qs ih =>
      have hq : retention_candidate q = false := hpre q (by simp)
      simp only [List.cons_append, xattrs_get_retention, hq, Bool.false_eq_true,
        if_false, List.cons.injEq, true_and]
      exact ih (fun r hr => hpre r (by simp [hr]))
  · intro data hdata hacc
    obtain ⟨k, v⟩ := p
    simp only at hdata
    subst hdata
    simp [retention_rewrite, hacc]
  · intro hacc
    cases hv : p.value with
    | binary data => simp [retention_rewrite, hv, hacc]
    | string s => simp [retention_rewrite, hv]
    | int32 i => simp [retention_rewrite, hv]
    | uint32 n => simp [retention_rewrite, hv]
    | uint64 n => simp [retention_rewrite, hv]
    | sequence vs => simp [retention_rewrite, hv]
  · intro xs hxs
    induction xs with
    | nil => rfl
    | cons q qs ih =>
      have hq : retention_candidate q = false := hxs q (by simp)
      simp only [xattrs_get_retention, hq, Bool.false_eq_true, if_false,
        List.cons.injEq, true_and]
      exact ih (fun r hr => hxs r (by simp [hr]))

/-- Witness for C9 at concrete inputs: in a three-pair list whose middle
pair holds the two-digit value "12", only that pair is rewritten, to
UInt64 12, and the surrounding pairs are untouched. -/
theorem retention_rewrite_characterized_witness :
    xattrs_get_retention 0
      [{ key := "other", value := .binary [49] },
       { key := "user.ccc_expires_at", value := .binary [49, 50] },
       { key := "z", value := .uint64 9 }] =
      [{ key := "other", value := .binary [49] },
       { key := "user.ccc_expires_at", value := .uint64 12 },
       { key := "z", value := .uint64 9 }] := by
  have h := (retention_rewrite_characterized 0
      [{ key := "other", value := .binary [49] }]
      [{ key := "z", value := .uint64 9 }]
      { key := "user.ccc_expires_at", value := .binary [49, 50] }
      (by
        intro q hq
        rcases List.mem_singleton.mp hq with rfl
        rfl)
      (by rfl)).1
  exact h.trans rfl

/-! ## Workspace lemmas for the OST preservation claim -/

theorem robin_take_append {α : Type} :
    ∀ (l1 l2 : List α) (n : Nat), n ≤ l1.length →
      (l1 ++ l2).take n = l1.take n := by
  intro l1
  induction l1 with
  | nil =>
    intro l2 n h
    simp at h
    simp [h]
  | cons a t ih =>
    intro l2 n h
    cases n with
    | zero => simp
    | succ m => simp [ih l2 m (by simpa using h)]

theorem robin_take_succ_set {α : Type} :
    ∀ (l : List α) (i : Nat) (v : α), i < l.length →
      (l.set i v).take (i + 1) = l.take i ++ [v] := by
  intro l
  induction l with
  | nil =>
    intro i v h
    simp at h
  | cons a t ih =>
    intro i v h
    cases i with
    | zero => simp
    | succ j =>
      have h' : j < t.length := by simpa using h
      simp [ih j v h']

theorem ost_fetch_list_length_le (get : Nat → OstRes) :
    ∀ (n i : Nat), (ost_fetch_list get i n).length ≤ n := by
  intro n
  induction n with
  | zero =>
    intro i
    simp [ost_fetch_list]
  | succ m ih =>
    intro i
    cases hg : get i with
    | ok v =>
      have := ih (i + 1)
      simp [ost_fetch_list, hg]
      omega
    | einval => simp [ost_fetch_list, hg]
    | fail rc => simp [ost_fetch_list, hg]

theorem resize_ost_spec (d : IterData) (n : Nat)
    (h1 : d.ost.length = d.ost_size) (h2 : d.ost_idx ≤ d.ost_size) :
    (iter_data_ost_try_resize d n).ost.length =
      (iter_data_ost_try_resize d n).ost_size ∧
    (iter_data_ost_try_resize d n).ost_idx = d.ost_idx ∧
    d.ost_idx + n ≤ (iter_data_ost_try_resize d n).ost_size ∧
    (iter_data_ost_try_resize d n).ost.take d.ost_idx =
      d.ost.take d.ost_idx ∧
    (iter_data_ost_try_resize d n).comp_index = d.comp_index := by
  unfold iter_data_ost_try_resize
  split
  · next hlt =>
    refine ⟨?_, rfl, ?_, ?_, rfl⟩
    · simp
      omega
    · simp
      omega
    · have hle : d.ost_idx ≤ d.ost.length := by omega
      exact robin_take_append d.ost _ d.ost_idx hle
  · next hge => exact ⟨h1, rfl, by omega, rfl, rfl⟩

theorem ost_loop_ost_spec (get : Nat → OstRes) :
    ∀ (n i : Nat) (d : IterData), d.ost.length = d.ost_size →
      d.ost_idx + n ≤ d.ost_size →
      (∀ j, j < n → ∀ rc, get (i + j) ≠ OstRes.fail rc) →
      ∃ d', ost_loop get i d n = .ok d' ∧
        d'.ost.length = d'.ost_size ∧
        d'.ost_size = d.ost_size ∧
        d'.ost_idx = d.ost_idx + (ost_fetch_list get i n).length ∧
        d'.ost.take d'.ost_idx =
          d.ost.take d.ost_idx ++ (ost_fetch_list get i n).map RbhValue.uint64 ∧
        d'.comp_index = d.comp_index := by
  intro n
  induction n with
  | zero =>
    intro i d h1 h2 hf
    exact ⟨d, rfl, h1, rfl, by simp [ost_fetch_list],
           by simp [ost_fetch_list], rfl⟩
  | succ m ih =>
    intro i d h1 h2 hf
    cases hg : get i with
    | ok v =>
      have hlt : d.ost_idx < d.ost.length := by omega
      have hf' : ∀ j, j < m → ∀ rc, get (i + 1 + j) ≠ OstRes.fail rc := by
        intro j hj rc
        have hx := hf (j + 1) (by omega) rc
        rwa [show i + (j + 1) = i + 1 + j by omega] at hx
      obtain ⟨d', hrun, hl, hs, hi, ht, hc⟩ :=
        ih (i + 1) (ost_append d v) (by simp [ost_append, h1])
          (by simp [ost_append]; omega) hf'
      have hstep : (ost_append d v).ost.take (ost_append d v).ost_idx =
          d.ost.take d.ost_idx ++ [RbhValue.uint64 v] := by
        simpa [ost_append] using
          robin_take_succ_set d.ost d.ost_idx (RbhValue.uint64 v) hlt
      refine ⟨d', ?_, hl, ?_, ?_, ?_, ?_⟩
      · simpa [ost_loop, hg] using hrun
      · simpa [ost_append] using hs
      · rw [hi]
        simp [ost_append, ost_fetch_list, hg]
        omega
      · rw [ht, hstep]
        simp [ost_fetch_list, hg]
      · simpa [ost_append] using hc
    | einval =>
      exact ⟨d, by simp [ost_loop, hg], h1, rfl, by simp [ost_fetch_list, hg],
             by simp [ost_fetch_list, hg], rfl⟩
    | fail rc =>
      have hx := hf 0 (by omega) rc
      simp at hx
      exact absurd hg hx

theorem resize_then_loop_spec (get : Nat → OstRes) (sc : Nat) (d : IterData)
    (h1 : d.ost.length = d.ost_size) (h2 : d.ost_idx ≤ d.ost_size)
    (hf : ∀ j, j < sc → ∀ rc, get j ≠ OstRes.fail rc) :
    ∃ d', ost_loop get 0 (iter_data_ost_try_resize d sc) sc = .ok d' ∧
      d'.ost.length = d'.ost_size ∧ d'.ost_idx ≤ d'.ost_size ∧
      d'.ost_idx = d.ost_idx + (ost_fetch_list get 0 sc).length ∧
      d'.ost.take d'.ost_idx =
        d.ost.take d.ost_idx ++ (ost_fetch_list get 0 sc).map RbhValue.uint64 ∧
      d'.comp_index = d.comp_index := by
  obtain ⟨hl, hi, hcap, htake, hcidx⟩ := resize_ost_spec d sc h1 h2
  have hf0 : ∀ j, j < sc → ∀ rc, get (0 + j) ≠ OstRes.fail rc := by
    intro j hj rc
    simpa using hf j hj rc
  obtain ⟨d', hrun, hl', hs', hi', ht', hc'⟩ :=
    ost_loop_ost_spec get sc 0 (iter_data_ost_try_resize d sc) hl
      (by omega) hf0
  have hle := ost_fetch_list_length_le get sc 0
  refine ⟨d', hrun, hl', by omega, by omega, ?_, by rw [hc', hcidx]⟩
  rw [ht', hi, htake]

theorem resize_then_append_spec (d : IterData) (v : Nat)
    (h1 : d.ost.length = d.ost_size) (h2 : d.ost_idx ≤ d.ost_size) :
    (ost_append (iter_data_ost_try_resize d 1) v).ost.length =
      (ost_append (iter_data_ost_try_resize d 1) v).ost_size ∧
    (ost_append (iter_data_ost_try_resize d 1) v).ost_idx ≤
      (ost_append (iter_data_ost_try_resize d 1) v).ost_size ∧
    (ost_append (iter_data_ost_try_resize d 1) v).ost_idx = d.ost_idx + 1 ∧
    (ost_append (iter_data_ost_try_resize d 1) v).ost.take (d.ost_idx + 1) =
      d.ost.take d.ost_idx ++ [RbhValue.uint64 v] ∧
    (ost_append (iter_data_ost_try_resize d 1) v).comp_index = d.comp_index := by
  obtain ⟨hl, hi, hcap, htake, hcidx⟩ := resize_ost_spec d 1 h1 h2
  have hlt : (iter_data_ost_try_resize d 1).ost_idx <
      (iter_data_ost_try_resize d 1).ost.length := by omega
  have hstep := robin_take_succ_set (iter_data_ost_try_resize d 1).ost
    (iter_data_ost_try_resize d 1).ost_idx (RbhValue.uint64 v) hlt
  rw [hi] at hstep
  refine ⟨by simp [ost_append, hl], ?_, by simp [ost_append, hi], ?_,
          by simp [ost_append, hcidx]⟩
  · simp [ost_append]
    omega
  · simp only [ost_append]
    rw [hi, hstep, htake]

theorem fill_iterator_data_ost_spec (composite : Bool) (c : CompDesc)
    (d : IterData) (index : Nat) (hc : comp_ok c)
    (h1 : d.ost.length = d.ost_size) (h2 : d.ost_idx ≤ d.ost_size) :
    ∃ d', fill_iterator_data composite c d index = .ok d' ∧
      d'.ost.length = d'.ost_size ∧ d'.ost_idx ≤ d'.ost_size ∧
      d'.ost_idx = d.ost_idx + (comp_items composite c).length ∧
      d'.ost.take d'.ost_idx =
        d.ost.take d.ost_idx ++ (comp_items composite c).map RbhValue.uint64 ∧
      d'.comp_index = d.comp_index := by
  obtain ⟨a, ha, hfail⟩ := hc
  by_cases hini : a.comp_flags = LCME_FL_INIT ∨ composite = false
  · obtain ⟨d', hrun, hl', hle', hi', ht', hc'⟩ :=
      resize_then_loop_spec c.ost_get a.stripe_count
        { d with
          stripe_count := d.stripe_count.set index (.uint64 a.stripe_count)
          stripe_size := d.stripe_size.set index (.uint64 a.stripe_size)
          pattern := d.pattern.set index (.uint64 a.pattern)
          flags := d.flags.set index (.uint32 a.comp_flags)
          pool := d.pool.set index (.string a.pool) }
        h1 h2 hfail
    refine ⟨d', ?_, hl', hle', ?_, ?_, hc'⟩
    · simpa [fill_iterator_data, ha, hini] using hrun
    · rw [hi']
      simp [comp_items, ha, hini]
    · rw [ht']
      simp [comp_items, ha, hini]
  · obtain ⟨hl', hle', hi', ht', hc'⟩ :=
      resize_then_append_spec
        { d with
          stripe_count := d.stripe_count.set index (.uint64 a.stripe_count)
          stripe_size := d.stripe_size.set index (.uint64 a.stripe_size)
          pattern := d.pattern.set index (.uint64 a.pattern)
          flags := d.flags.set index (.uint32 a.comp_flags)
          pool := d.pool.set index (.string a.pool) }
        UINT64_NEG_ONE h1 h2
    refine ⟨_, ?_, hl', hle', ?_, ?_, hc'⟩
    · simp [fill_iterator_data, ha, hini]
    · rw [hi']
      simp [comp_items, ha, hini]
    · rw [show (comp_items composite c).map RbhValue.uint64 =
            [RbhValue.uint64 UINT64_NEG_ONE] by simp [comp_items, ha, hini]]
      rw [show (ost_append (iter_data_ost_try_resize
        { d with
          stripe_count := d.stripe_count.set index (.uint64 a.stripe_count)
          stripe_size := d.stripe_size.set index (.uint64 a.stripe_size)
          pattern := d.pattern.set index (.uint64 a.pattern)
          flags := d.flags.set index (.uint32 a.comp_flags)
          pool := d.pool.set index (.string a.pool) } 1)
        UINT64_NEG_ONE).ost_idx = d.ost_idx + 1 from hi']
      exact ht'

theorem layout_iterator_ost_spec (c : CompDesc) (d : IterData)
    (hc : comp_ok c) (h1 : d.ost.length = d.ost_size)
    (h2 : d.ost_idx ≤ d.ost_size) :
    ∃ d', xattrs_layout_iterator c d = .ok d' ∧
      d'.ost.length = d'.ost_size ∧ d'.ost_idx ≤ d'.ost_size ∧
      d'.ost_idx = d.ost_idx + (comp_items true c).length ∧
      d'.ost.take d'.ost_idx =
        d.ost.take d.ost_idx ++ (comp_items true c).map RbhValue.uint64 := by
  obtain ⟨a, ha, -⟩ := id hc
  obtain ⟨d1, hfill, hl, hle, hidx, htake, hcidx⟩ :=
    fill_iterator_data_ost_spec true c d d.comp_index hc h1 h2
  exact ⟨{ d1 with
           begin_ := d1.begin_.set d1.comp_index (.uint64 a.ext_begin)
           end_ := d1.end_.set d1.comp_index (.uint64 a.ext_end)
           mirror_id := d1.mirror_id.set d1.comp_index (.uint32 a.mirror_id)
           comp_index := d1.comp_index + 1 },
         by simp [xattrs_layout_iterator, hfill, ha], hl, hle, hidx, htake⟩

theorem layout_comp_iterate_ost_spec :
    ∀ (comps : List CompDesc) (d : IterData), (∀ c ∈ comps, comp_ok c) →
      d.ost.length = d.ost_size → d.ost_idx ≤ d.ost_size →
      ∃ d', layout_comp_iterate comps d = .ok d' ∧
        d'.ost.length = d'.ost_size ∧ d'.ost_idx ≤ d'.ost_size ∧
        d'.ost_idx = d.ost_idx + (all_comp_items true comps).length ∧
        d'.ost.take d'.ost_idx =
          d.ost.take d.ost_idx ++
            (all_comp_items true comps).map RbhValue.uint64 := by
  intro comps
  induction comps with
  | nil =>
    intro d hok h1 h2
    exact ⟨d, rfl, h1, h2, by simp [all_comp_items],
           by simp [all_comp_items]⟩
  | cons c cs ih =>
    intro d hok h1 h2
    obtain ⟨d1, hstep, hl1, hle1, hidx1, htake1⟩ :=
      layout_iterator_ost_spec c d (hok c (by simp)) h1 h2
    obtain ⟨d', hrun, hl', hle', hidx', htake'⟩ :=
      ih d1 (fun x hx => hok x (by simp [hx])) hl1 hle1
    refine ⟨d', by simp [layout_comp_iterate, hstep, hrun], hl', hle', ?_, ?_⟩
    · rw [hidx', hidx1]
      simp [all_comp_items]
      omega
    · rw [htake', htake1]
      simp [all_comp_items, List.append_assoc]

/-! ## C5 -/

/-- C5: the growable OST workspace neither loses nor duplicates an item:
for a composite layout whose components' getters succeed and whose OST
fetches do not hard-fail, and likewise on the non-composite path, the
iteration succeeds and the workspace prefix pushed as the "ost" sequence
is exactly the concatenation of the discovered items in discovery order,
with the stored count equal to the number of discovered items. -/
theorem ost_workspace_exact (nb_comp nb_xattrs : Nat) (L : LayoutDesc)
    (hcomps : ∀ c ∈ L.comps, comp_ok c) (hroot : comp_ok L.root_comp) :
    (∃ d, layout_iterate_data true L (init_iterator_data nb_comp nb_xattrs) =
        .ok d ∧
      d.ost.take d.ost_idx = (all_comp_items true L.comps).map RbhValue.uint64 ∧
      d.ost_idx = (all_comp_items true L.comps).length ∧
      ∃ front, xattrs_fill_layout d nb_xattrs = front ++
        [{ key := "ost",
           value := .sequence ((all_comp_items true L.comps).map
             RbhValue.uint64) }]) ∧
    (∃ d, layout_iterate_data false L (init_iterator_data nb_comp nb_xattrs) =
        .ok d ∧
      d.ost.take d.ost_idx =
        (comp_items false L.root_comp).map RbhValue.uint64 ∧
      d.ost_idx = (comp_items false L.root_comp).length ∧
      ∃ front, xattrs_fill_layout d nb_xattrs = front ++
        [{ key := "ost",
           value := .sequence ((comp_items false L.root_comp).map
             RbhValue.uint64) }]) := by
  constructor
  · obtain ⟨d, hrun, hl, hle, hidx, htake⟩ :=
      layout_comp_iterate_ost_spec L.comps (init_iterator_data nb_comp nb_xattrs)
        hcomps (by simp [init_iterator_data]) (by simp [init_iterator_data])
    have htake' : d.ost.take d.ost_idx =
        (all_comp_items true L.comps).map RbhValue.uint64 := by
      rw [htake]
      simp [init_iterator_data]
    refine ⟨d, ?_, htake', by simpa [init_iterator_data] using hidx, ?_⟩
    · simpa [layout_iterate_data] using hrun
    · refine ⟨((layout_keys.zip (layout_values d)).take nb_xattrs).map
        (fun kv => { key := kv.1, value := .sequence (kv.2.take d.comp_index) }),
        ?_⟩
      unfold xattrs_fill_layout
      rw [htake']
  · obtain ⟨d, hrun, hl, hle, hidx, htake, -⟩ :=
      fill_iterator_data_ost_spec false L.root_comp
        (init_iterator_data nb_comp nb_xattrs) 0 hroot
        (by simp [init_iterator_data]) (by simp [init_iterator_data])
    have htake' : d.ost.take d.ost_idx =
        (comp_items false L.root_comp).map RbhValue.uint64 := by
      rw [htake]
      simp [init_iterator_data]
    refine ⟨d, ?_, htake', by simpa [init_iterator_data] using hidx, ?_⟩
    · simpa [layout_iterate_data] using hrun
    · refine ⟨((layout_keys.zip (layout_values d)).take nb_xattrs).map
        (fun kv => { key := kv.1, value := .sequence (kv.2.take d.comp_index) }),
        ?_⟩
      unfold xattrs_fill_layout
      rw [htake']

/-- Witness for C5 at concrete inputs: the two-component layout with
discovered items 20, 21 and the uninitialised placeholder yields exactly
that three-item sequence with count 3. -/
theorem ost_workspace_exact_witness :
    ∃ d, layout_iterate_data true layoutC (init_iterator_data 2 8) = .ok d ∧
      d.ost.take d.ost_idx =
        [.uint64 20, .uint64 21, .uint64 UINT64_NEG_ONE] ∧
      d.ost_idx = 3 := by
  have hok : ∀ c ∈ layoutC.comps, comp_ok c := by
    intro c hc
    have hmem : c = compC1 ∨ c = compC2 := by
      simpa [layoutC] using hc
    rcases hmem with rfl | rfl
    · exact ⟨_, rfl, fun i hi rc h => OstRes.noConfusion h⟩
    · exact ⟨_, rfl, fun i hi rc h => OstRes.noConfusion h⟩
  have hroot : comp_ok layoutC.root_comp :=
    ⟨_, rfl, fun i hi rc h => OstRes.noConfusion h⟩
  obtain ⟨d, hrun, hseq, hlen, -⟩ := (ost_workspace_exact 2 8 layoutC hok hroot).1
  refine ⟨d, hrun, ?_, ?_⟩
  · rw [hseq]
    rfl
  · rw [hlen]
    rfl

end Robinhood
